import Mathlib

/-!
# Verification of the `awscurl` request pipeline (`src/main.go`)

A shallow embedding of the Go program `awscurl`: a CLI HTTP client that signs
requests with AWS Signature Version 4 before dispatching them.  Bytes are
`Nat`s below 256, 32-bit machine words are `Nat`s reduced modulo `2^32`,
Go strings are Lean `String`s, and the fallible pipeline `runCurl` returns an
explicit outcome record.  External collaborators (the AWS SDK default config
chain, the SigV4 signer, the file system and the HTTP transport) are modelled
as explicit parameters of the run; everything else is translated directly from
`src/main.go`.
-/

namespace AWSCurl

/-! ## 32-bit words and SHA-256 (Go `crypto/sha256`, used by `hashSHA256`) -/

/-- `2^32`, the modulus of 32-bit machine arithmetic. -/
def M32 : Nat := 4294967296

/-- Right rotation of a 32-bit word (values kept below `M32`). -/
def rotr32 (n x : Nat) : Nat := (x / 2 ^ n + x % 2 ^ n * 2 ^ (32 - n)) % M32

/-- Logical right shift of a 32-bit word. -/
def shr32 (n x : Nat) : Nat := x / 2 ^ n

/-- Bitwise complement on 32 bits (valid for `x < M32`). -/
def not32 (x : Nat) : Nat := 4294967295 - x

/-- The SHA-256 round constants (decimal form of the standard table). -/
def K256 : List Nat :=
  [1116352408, 1899447441, 3049323471, 3921009573, 961987163, 1508970993,
   2453635748, 2870763221, 3624381080, 310598401, 607225278, 1426881987,
   1925078388, 2162078206, 2614888103, 3248222580, 3835390401, 4022224774,
   264347078, 604807628, 770255983, 1249150122, 1555081692, 1996064986,
   2554220882, 2821834349, 2952996808, 3210313671, 3336571891, 3584528711,
   113926993, 338241895, 666307205, 773529912, 1294757372, 1396182291,
   1695183700, 1986661051, 2177026350, 2456956037, 2730485921, 2820302411,
   3259730800, 3345764771, 3516065817, 3600352804, 4094571909, 275423344,
   430227734, 506948616, 659060556, 883997877, 958139571, 1322822218,
   1537002063, 1747873779, 1955562222, 2024104815, 2227730452, 2361852424,
   2428436474, 2756734187, 3204031479, 3329325298]

/-- The SHA-256 working state: eight 32-bit words. -/
structure Hash8 where
  a : Nat
  b : Nat
  c : Nat
  d : Nat
  e : Nat
  f : Nat
  g : Nat
  h : Nat
deriving DecidableEq, Repr

/-- The SHA-256 initial hash value (decimal form of the standard words). -/
def H0 : Hash8 :=
  ⟨1779033703, 3144134277, 1013904242, 2773480762,
   1359893119, 2600822924, 528734635, 1541459225⟩

/-- Four big-endian bytes as one 32-bit word. -/
def word32 (b0 b1 b2 b3 : Nat) : Nat := ((b0 * 256 + b1) * 256 + b2) * 256 + b3

/-- Group a byte list into big-endian 32-bit words (trailing bytes dropped). -/
def wordsOfBytes : List Nat → List Nat
  | b0 :: b1 :: b2 :: b3 :: rest => word32 b0 b1 b2 b3 :: wordsOfBytes rest
  | _ => []

/-- Message-schedule extension, on the reversed word list (head is the newest
word); each step prepends one new word. -/
def extendW : Nat → List Nat → List Nat
  | 0, rw => rw
  | n + 1, rw =>
    let s0 :=
      Nat.xor (Nat.xor (rotr32 7 (rw.getD 14 0)) (rotr32 18 (rw.getD 14 0)))
        (shr32 3 (rw.getD 14 0))
    let s1 :=
      Nat.xor (Nat.xor (rotr32 17 (rw.getD 1 0)) (rotr32 19 (rw.getD 1 0)))
        (shr32 10 (rw.getD 1 0))
    extendW n ((rw.getD 15 0 + s0 + rw.getD 6 0 + s1) % M32 :: rw)

/-- One SHA-256 compression round. -/
def round256 (st : Hash8) (k w : Nat) : Hash8 :=
  let S1 := Nat.xor (Nat.xor (rotr32 6 st.e) (rotr32 11 st.e)) (rotr32 25 st.e)
  let ch := Nat.xor (Nat.land st.e st.f) (Nat.land (not32 st.e) st.g)
  let t1 := (st.h + S1 + ch + k + w) % M32
  let S0 := Nat.xor (Nat.xor (rotr32 2 st.a) (rotr32 13 st.a)) (rotr32 22 st.a)
  let mj := Nat.xor (Nat.xor (Nat.land st.a st.b) (Nat.land st.a st.c))
    (Nat.land st.b st.c)
  let t2 := (S0 + mj) % M32
  ⟨(t1 + t2) % M32, st.a, st.b, st.c, (st.d + t1) % M32, st.e, st.f, st.g⟩

/-- Compress one 64-byte block into the running hash. -/
def compressBlock (hv : Hash8) (block : List Nat) : Hash8 :=
  let w16 := wordsOfBytes block
  let wAll := (extendW 48 w16.reverse).reverse
  let st := (K256.zip wAll).foldl (fun s kw => round256 s kw.1 kw.2) hv
  ⟨(hv.a + st.a) % M32, (hv.b + st.b) % M32, (hv.c + st.c) % M32,
   (hv.d + st.d) % M32, (hv.e + st.e) % M32, (hv.f + st.f) % M32,
   (hv.g + st.g) % M32, (hv.h + st.h) % M32⟩

/-- The eight big-endian bytes of a 64-bit message length. -/
def lenBytes64 (ml : Nat) : List Nat :=
  [ml / 2 ^ 56 % 256, ml / 2 ^ 48 % 256, ml / 2 ^ 40 % 256, ml / 2 ^ 32 % 256,
   ml / 2 ^ 24 % 256, ml / 2 ^ 16 % 256, ml / 2 ^ 8 % 256, ml % 256]

/-- SHA-256 padding: `0x80`, zeros to 56 mod 64, then the bit length. -/
def padMsg (msg : List Nat) : List Nat :=
  msg ++ 0x80 :: List.replicate ((119 - msg.length % 64) % 64) 0
    ++ lenBytes64 (msg.length * 8)

/-- Split a byte list into 64-byte blocks (fuel-driven so it reduces in the
kernel; the fuel is always sufficient at the call site). -/
def chunks64 : Nat → List Nat → List (List Nat)
  | 0, _ => []
  | _, [] => []
  | fuel + 1, l => l.take 64 :: chunks64 fuel (l.drop 64)

/-- The four big-endian bytes of a 32-bit word. -/
def bytesOfWord (w : Nat) : List Nat :=
  [w / 2 ^ 24 % 256, w / 2 ^ 16 % 256, w / 2 ^ 8 % 256, w % 256]

/-- SHA-256 of a byte sequence, as its 32 digest bytes. -/
def sha256 (msg : List Nat) : List Nat :=
  let padded := padMsg msg
  let hv := (chunks64 (padded.length + 1) padded).foldl compressBlock H0
  bytesOfWord hv.a ++ bytesOfWord hv.b ++ bytesOfWord hv.c ++ bytesOfWord hv.d
    ++ bytesOfWord hv.e ++ bytesOfWord hv.f ++ bytesOfWord hv.g
    ++ bytesOfWord hv.h

/-- One lower-case hex digit. -/
def hexDigit (n : Nat) : Char :=
  if n < 10 then Char.ofNat (48 + n) else Char.ofNat (87 + n)

/-- Lower-case hex string of a byte list, two digits per byte — the format of
Go's `fmt.Sprintf("%x", ...)`. -/
def hexOfBytes (bs : List Nat) : String :=
  String.mk (bs.flatMap fun b => [hexDigit (b / 16 % 16), hexDigit (b % 16)])

/-- `hashSHA256` (`src/main.go` lines 213-217): the lower-case hex encoding of
the SHA-256 digest of the content bytes. -/
def hashSHA256 (content : List Nat) : String := hexOfBytes (sha256 content)

/-- The well-known SHA-256 digest of the empty byte sequence. -/
def emptySHA256Hex : String :=
  "e3b0c44298fc1c149afbf4c8996fb92427ae41e4649b934ca495991b7852b855"

/-! ## Go string primitives

Structurally recursive versions of the Go `strings` operations the program
uses, over the character list of a `String` (the core library's own string
functions are defined by well-founded recursion and do not evaluate inside
the kernel). -/

/-- Go `unicode.IsSpace` restricted to the ASCII space characters
(`' '`, `\t`, `\n`, `\v`, `\f`, `\r`); the Unicode-only space code points
play no role in this program's inputs. -/
def isGoSpace (c : Char) : Bool :=
  c = ' ' || c = '\t' || c = '\n' || c = '\x0b' || c = '\x0c' || c = '\r'

/-- Go `strings.TrimSpace`: strip leading and trailing space characters. -/
def goTrim (s : String) : String :=
  String.mk (((s.data.dropWhile isGoSpace).reverse.dropWhile isGoSpace).reverse)

/-- Split a character list at EVERY occurrence of `c`, keeping empty parts —
the behaviour of Go `strings.Split`. -/
def splitOnChar (c : Char) : List Char → List (List Char)
  | [] => [[]]
  | x :: xs =>
    match splitOnChar c xs with
    | [] => [[]]
    | y :: ys => if x = c then [] :: y :: ys else (x :: y) :: ys

/-- Go `strings.Split(s, ":")`. -/
def goSplitColon (s : String) : List String :=
  (splitOnChar ':' s.data).map String.mk

/-- Go `strings.HasPrefix(s, "@")`. -/
def dataStartsWithAt (s : String) : Bool :=
  match s.data with
  | c :: _ => c = '@'
  | [] => false

/-- Go `s[1:]` for a string starting with the one-byte character `@`. -/
def goDropFirst (s : String) : String := String.mk (s.data.drop 1)

/-- The decimal digits of a natural number (fuel-driven so it reduces in the
kernel; the fuel is always sufficient at the call site). -/
def natDigits : Nat → Nat → List Char
  | 0, _ => []
  | fuel + 1, n =>
    if n < 10 then [hexDigit n] else natDigits fuel (n / 10) ++ [hexDigit (n % 10)]

/-- The decimal string of a natural number (Go `strconv`-style formatting of
the timestamp in the modelled signer). -/
def natStr (n : Nat) : String := String.mk (natDigits (n + 1) n)

/-! ## Flags, credentials and the external world -/

/-- The bytes of a Go string, one per character code (Go strings are byte
sequences; this is exact for the ASCII data the program's claims exercise). -/
def strBytes (s : String) : List Nat := s.data.map Char.toNat

/-- `awsCURLFlags` (`src/main.go` lines 25-38): the flag values of one
invocation. -/
structure awsCURLFlags where
  headers : List String
  method : String
  data : String
  awsAccessKey : String
  awsSecretKey : String
  awsSessionToken : String
  awsProfile : String
  awsService : String
  awsRegion : String
  insecure : Bool
  proxy : String
deriving DecidableEq, Repr

/-- The flag defaults registered in `init` (`src/main.go` lines 68-83). -/
def defaultFlags : awsCURLFlags :=
  ⟨[], "GET", "", "", "", "", "", "execute-api", "", false, ""⟩

/-- An AWS credentials value (`aws.Credentials` as used by this program). -/
structure Credentials where
  accessKeyID : String
  secretAccessKey : String
  sessionToken : String
deriving DecidableEq, Repr

/-- The external collaborators of one run, fixed before the run starts:
what the AWS SDK default sources would yield, the file system, and the HTTP
transport.  `fsOpen` maps a path to `none` when opening fails, and otherwise
to the bytes `ReadAll` obtains together with whether `ReadAll` also returns a
read error (in which case the bytes are the partial prefix read so far).
`transport` is the response body `client.Do` + `ReadAll` produce, `none` for a
transport failure. -/
structure World where
  chainCreds : Option Credentials
  envRegion : String
  profileRegion : String
  fsOpen : String → Option (List Nat × Bool)
  proxyOk : Bool
  transport : Option (List Nat)

/-! ## getAWSConfig (`src/main.go` lines 179-202) -/

/-- The `aws.Config` fields this program uses: the credentials the lazy
provider will yield on `Retrieve` (`none` when no source resolves, so that
`Retrieve` fails), and the region. -/
structure AWSConfig where
  credentials : Option Credentials
  region : String
deriving DecidableEq, Repr

/-- Modelled from the spec: the region resolved by the external SDK call
`config.LoadDefaultConfig` (not part of this repository) — environment over
shared profile, empty when neither is set (spec §4.1: "explicit flag >
environment > profile"). -/
def sdkRegion (w : World) : String :=
  if w.envRegion ≠ "" then w.envRegion else w.profileRegion

/-- The credentials provider `getAWSConfig` installs (`src/main.go` lines
183-192): a static provider exactly when BOTH `--access-key` and
`--secret-key` are non-empty, otherwise whatever the SDK default chain
yields (`World.chainCreds` abstracts that external chain, already accounting
for the `--profile` flag registered at lines 183-186). -/
def credsOf (f : awsCURLFlags) (w : World) : Option Credentials :=
  if f.awsAccessKey ≠ "" ∧ f.awsSecretKey ≠ "" then
    some ⟨f.awsAccessKey, f.awsSecretKey, f.awsSessionToken⟩
  else
    w.chainCreds

/-- The region of the loaded config (`src/main.go` lines 197-199): the
explicit `--region` flag overrides the SDK-resolved region. -/
def regionOf (f : awsCURLFlags) (w : World) : String :=
  if f.awsRegion ≠ "" then f.awsRegion else sdkRegion w

/-- `getAWSConfig` (`src/main.go` lines 179-202).  `LoadDefaultConfig` itself
is deferred: credential resolution errors surface later, at `Retrieve`
(line 134), which the `credentials := none` case models. -/
def getAWSConfig (f : awsCURLFlags) (w : World) : Except String AWSConfig :=
  .ok ⟨credsOf f w, regionOf f w⟩

/-! ## Header parsing (`src/main.go` lines 119-127) -/

/-- One `--header` string, split on EVERY `:` like Go's `strings.Split`
(line 120); accepted only when that yields exactly two parts (line 121), the
name and value then whitespace-trimmed (lines 124-125). -/
def parseHeader (h : String) : Option (String × String) :=
  match goSplitColon h with
  | [k, v] => some (goTrim k, goTrim v)
  | _ => none

/-- The header loop (`src/main.go` lines 119-127): headers are added in
order; the first malformed one aborts the run with its text. -/
def parseHeaders : List String → Except String (List (String × String))
  | [] => .ok []
  | h :: rest =>
    match parseHeader h with
    | none => .error h
    | some kv =>
      match parseHeaders rest with
      | .error e => .error e
      | .ok t => .ok (kv :: t)

/-! ## The HTTP request, body reading and signing -/

/-- The parts of `*http.Request` this program manipulates.  `body` holds the
bytes the transport will transmit (after `readAndReplaceBody` has replaced
the reader by a replayable byte buffer, line 209). -/
structure Request where
  method : String
  url : String
  headers : List (String × String)
  body : List Nat
deriving DecidableEq, Repr

/-- `readAndReplaceBody` (`src/main.go` lines 204-211): a `nil` body reads as
the empty byte sequence (lines 205-207); otherwise `ReadAll` drains the
reader and its error is DISCARDED with `_` (line 208), so only the (possibly
partial) bytes survive. -/
def readAndReplaceBody : Option (List Nat × Bool) → List Nat
  | none => []
  | some (payload, _) => payload

/-- The body reader `runCurl` builds (`src/main.go` lines 99-110): the file
named after `@` when `--data` starts with `@` (open failure aborts the run),
otherwise a string reader over the literal `--data` value, which never
errors. -/
def bodyReaderOf (f : awsCURLFlags) (w : World) :
    Except String (List Nat × Bool) :=
  if dataStartsWithAt f.data then
    match w.fsOpen (goDropFirst f.data) with
    | none => .error (goDropFirst f.data)
    | some r => .ok r
  else
    .ok (strBytes f.data, false)

/-- Modelled from the spec: the headers the external SigV4 signer
(`v4.Signer.SignHTTP`, not part of this repository) attaches — a timestamp
header, the session-token header when one is present, and an authorization
header deterministically derived from credentials, body hash, service,
region and timestamp (spec §4.3, §3 "SignedRequest").  The signature token
here stands in for the external HMAC chain, which is out of scope (spec §1);
what matters to the claims is that it is a pure function of the listed
inputs. -/
def signedHeaders (creds : Credentials) (bodyHash service region : String)
    (now : Nat) : List (String × String) :=
  ("X-Amz-Date", natStr now) ::
    (if creds.sessionToken = "" then []
     else [("X-Amz-Security-Token", creds.sessionToken)]) ++
    [("Authorization",
      "AWS4-HMAC-SHA256 Credential=" ++ creds.accessKeyID ++ "/" ++ region
        ++ "/" ++ service ++ "/aws4_request, Signature="
        ++ hashSHA256 (strBytes (bodyHash ++ "\n" ++ region ++ "\n" ++ service
            ++ "\n" ++ natStr now)))]

/-- Modelled from the spec: `v4.Signer.SignHTTP` (external, spec §4.3) —
"mutates only the outgoing header set; never mutates the body", never fails
for empty region or empty credential fields. -/
def signHTTP (creds : Credentials) (req : Request)
    (bodyHash service region : String) (now : Nat) : Request :=
  { req with
    headers := req.headers ++ signedHeaders creds bodyHash service region now }

/-! ## runCurl (`src/main.go` lines 85-176) and main (lines 62-66) -/

/-- The errors `runCurl` can return, one constructor per `return err` /
`return fmt.Errorf` site, in source order. -/
inductive RunError where
  /-- `getAWSConfig` failed (line 96; message from line 194). -/
  | configLoad (msg : String)
  /-- `os.Open` on the `@`-file failed (line 106). -/
  | fileOpen (path : String)
  /-- A `--header` string did not split on `:` into two parts (line 122). -/
  | invalidHeader (h : String)
  /-- `cfg.Credentials.Retrieve` failed: no source yielded credentials
  (line 136). -/
  | credsUnavailable
  /-- `urls.Parse` on `--proxy` failed (line 154). -/
  | proxyParse (p : String)
  /-- `client.Do` (or reading the response body) failed (lines 164, 171). -/
  | transport
deriving DecidableEq, Repr

instance {ε α : Type} [DecidableEq ε] [DecidableEq α] :
    DecidableEq (Except ε α) := fun a b =>
  match a, b with
  | .ok x, .ok y =>
    if h : x = y then isTrue (by rw [h])
    else isFalse (fun hc => h (Except.ok.inj hc))
  | .error x, .error y =>
    if h : x = y then isTrue (by rw [h])
    else isFalse (fun hc => h (Except.error.inj hc))
  | .ok _, .error _ => isFalse (fun hc => Except.noConfusion hc)
  | .error _, .ok _ => isFalse (fun hc => Except.noConfusion hc)

/-- Everything observable about one `runCurl` run: the returned value
(`.ok` carries the bytes printed to standard output), whether `client.Do`
was invoked (the network call to the target), and — when the signer was
invoked — the body hash, region and credentials handed to it, plus the body
and headers of the dispatched request. -/
structure RunOutcome where
  result : Except RunError (List Nat)
  networkCalled : Bool
  signedBodyHash : Option String
  signedRegion : Option String
  signedCreds : Option Credentials
  sentBody : Option (List Nat)
  sentHeaders : Option (List (String × String))
deriving DecidableEq, Repr

/-- An outcome for a run aborted before the signer and the dispatch. -/
def errOutcome (e : RunError) : RunOutcome :=
  ⟨.error e, false, none, none, none, none, none⟩

/-- The tail of `runCurl` after the signer has run (`src/main.go` lines
144-175): build the transport (145-147), parse the proxy URL when one is
given and abort on a parse failure (150-158), dispatch with `client.Do`
(162), and print the response body with `fmt.Println`, which appends a
newline byte (173). -/
def dispatchPhase (f : awsCURLFlags) (w : World) (bodyHash region : String)
    (creds : Credentials) (signedReq : Request) : RunOutcome :=
  if f.proxy != "" && !w.proxyOk then
    ⟨.error (.proxyParse f.proxy), false, some bodyHash, some region,
     some creds, none, none⟩
  else
    match w.transport with
    | none =>
      ⟨.error .transport, true, some bodyHash, some region, some creds,
       some signedReq.body, some signedReq.headers⟩
    | some respBody =>
      ⟨.ok (respBody ++ [10]), true, some bodyHash, some region, some creds,
       some signedReq.body, some signedReq.headers⟩

/-- `runCurl` (`src/main.go` lines 85-176), step for step in source order:
load the config (94), build the body reader (99-110), build the request and
add the parsed headers (112-127), drain and replace the body and hash it
(130-131), retrieve credentials (134), sign (139), set up proxy (150-158),
dispatch and print the response followed by `fmt.Println`'s newline
(161-173). -/
def runCurl (f : awsCURLFlags) (url : String) (w : World) (now : Nat) :
    RunOutcome :=
  match getAWSConfig f w with
  | .error e => errOutcome (.configLoad e)
  | .ok cfg =>
    match bodyReaderOf f w with
    | .error p => errOutcome (.fileOpen p)
    | .ok reader =>
      match parseHeaders f.headers with
      | .error h => errOutcome (.invalidHeader h)
      | .ok hdrs =>
        let reqBody := readAndReplaceBody (some reader)
        let reqBodySHA256 := hashSHA256 reqBody
        match cfg.credentials with
        | none => errOutcome .credsUnavailable
        | some creds =>
          let req : Request := ⟨f.method, url, hdrs, reqBody⟩
          let signedReq :=
            signHTTP creds req reqBodySHA256 f.awsService cfg.region now
          dispatchPhase f w reqBodySHA256 cfg.region creds signedReq

/-- `main` (`src/main.go` lines 62-66): exit code 1 when `rootCmd.Execute`
propagates an error from `runCurl`, 0 otherwise. -/
def mainExitCode (f : awsCURLFlags) (url : String) (w : World) (now : Nat) :
    Nat :=
  match (runCurl f url w now).result with
  | .ok _ => 0
  | .error _ => 1

/-- The message of each error, from the corresponding `fmt.Errorf` in
`src/main.go` (config: line 194; header: line 122) or from the wrapped
library error; every arm is non-empty. -/
def errorMessage : RunError → String
  | .configLoad msg => "Unable to load AWS config: " ++ msg
  | .fileOpen path => "open " ++ path ++ ": no such file or directory"
  | .invalidHeader h =>
    "Error: Invalid header: " ++ h
      ++ ". It should be in the format \"Name: Value\""
  | .credsUnavailable => "failed to retrieve credentials"
  | .proxyParse p => "parse " ++ p ++ ": invalid proxy URL"
  | .transport => "request failed"

/-- What the process writes to standard error: on an error from `runCurl`,
cobra's `Execute` prints `Error: <message>` to stderr before `main` exits
with code 1; nothing on success. -/
def stderrOutput (f : awsCURLFlags) (url : String) (w : World) (now : Nat) :
    String :=
  match (runCurl f url w now).result with
  | .ok _ => ""
  | .error e => "Error: " ++ errorMessage e ++ "\n"

/-! ## Concrete runs shared by the witnesses and counterexamples -/

/-- Credentials as the SDK default chain would resolve them from the
process environment. -/
def envCreds : Credentials := ⟨"ENVKEY", "ENVSECRET", ""⟩

/-- A world where the default chain resolves `envCreds`, no region is set
anywhere, the file system is empty, and the transport answers `"ok"`. -/
def exampleWorld : World :=
  ⟨some envCreds, "", "", fun _ => none, true, some [111, 107]⟩

/-- Flags with only `--access-key` set: partial explicit credentials. -/
def partialCredFlags : awsCURLFlags :=
  { defaultFlags with awsAccessKey := "AKIDEXAMPLE" }

/-- Flags with a well-formed header whose value contains colons. -/
def colonHeaderFlags : awsCURLFlags :=
  { defaultFlags with headers := ["X-Endpoint: https://h:8443"] }

/-- Flags with the spec's malformed header scenario (no colon at all). -/
def badHeaderFlags : awsCURLFlags :=
  { defaultFlags with headers := ["BadHeader"] }

/-- Flags reading the payload from the file `payload.json`. -/
def fileFlags : awsCURLFlags := { defaultFlags with data := "@payload.json" }

/-- Flags with a literal two-byte payload `"hi"`. -/
def dataFlags : awsCURLFlags := { defaultFlags with data := "hi" }

/-- A world whose file system holds `payload.json` with bytes `[1, 2, 3]`
and a clean read. -/
def fileWorld : World :=
  { exampleWorld with
    fsOpen := fun p =>
      if p = "payload.json" then some ([1, 2, 3], false) else none }

/-- A world where reading `payload.json` yields the partial bytes `"ab"` and
then a read error. -/
def truncWorld : World :=
  { exampleWorld with
    fsOpen := fun p =>
      if p = "payload.json" then some ([97, 98], true) else none }

/-- A world where no credential source yields usable credentials. -/
def noCredsWorld : World := { exampleWorld with chainCreds := none }

/-! ## Stage lemmas about `runCurl` -/

/-- The digest of the empty byte sequence is the well-known constant. -/
theorem hashSHA256_nil : hashSHA256 [] = emptySHA256Hex := by decide

/-- `dispatchPhase` always records the body hash it was handed. -/
theorem dispatchPhase_signedBodyHash (f : awsCURLFlags) (w : World)
    (bodyHash region : String) (creds : Credentials) (signedReq : Request) :
    (dispatchPhase f w bodyHash region creds signedReq).signedBodyHash
      = some bodyHash := by
  cases hp : (f.proxy != "" && !w.proxyOk) with
  | true => simp [dispatchPhase, hp]
  | false => cases htr : w.transport <;> simp [dispatchPhase, hp, htr]

/-- `dispatchPhase` always records the region it was handed. -/
theorem dispatchPhase_signedRegion (f : awsCURLFlags) (w : World)
    (bodyHash region : String) (creds : Credentials) (signedReq : Request) :
    (dispatchPhase f w bodyHash region creds signedReq).signedRegion
      = some region := by
  cases hp : (f.proxy != "" && !w.proxyOk) with
  | true => simp [dispatchPhase, hp]
  | false => cases htr : w.transport <;> simp [dispatchPhase, hp, htr]

/-- A body `dispatchPhase` transmitted is the body of the signed request. -/
theorem dispatchPhase_sentBody (f : awsCURLFlags) (w : World)
    (bodyHash region : String) (creds : Credentials) (signedReq : Request)
    (b : List Nat)
    (h : (dispatchPhase f w bodyHash region creds signedReq).sentBody
      = some b) :
    b = signedReq.body := by
  cases hp : (f.proxy != "" && !w.proxyOk) with
  | true => simp [dispatchPhase, hp] at h
  | false =>
    cases htr : w.transport with
    | none =>
      simp [dispatchPhase, hp, htr] at h
      exact h.symm
    | some rb =>
      simp [dispatchPhase, hp, htr] at h
      exact h.symm

/-- When the transport answers and `dispatchPhase` reached it, the result is
the response body followed by the `fmt.Println` newline. -/
theorem dispatchPhase_result_ok (f : awsCURLFlags) (w : World)
    (bodyHash region : String) (creds : Credentials) (signedReq : Request)
    (rb : List Nat) (htr : w.transport = some rb)
    (hnet : (dispatchPhase f w bodyHash region creds signedReq).networkCalled
      = true) :
    (dispatchPhase f w bodyHash region creds signedReq).result
      = .ok (rb ++ [10]) := by
  cases hp : (f.proxy != "" && !w.proxyOk) with
  | true => simp [dispatchPhase, hp] at hnet
  | false => simp [dispatchPhase, hp, htr]

/-- `runCurl`, when every stage before the signer succeeds, is exactly the
dispatch phase on the signed request. -/
theorem runCurl_eq_dispatch (f : awsCURLFlags) (url : String) (w : World)
    (now : Nat) (hdrs : List (String × String)) (reader : List Nat × Bool)
    (c : Credentials) (hb : bodyReaderOf f w = .ok reader)
    (hh : parseHeaders f.headers = .ok hdrs) (hc : credsOf f w = some c) :
    runCurl f url w now =
      dispatchPhase f w (hashSHA256 (readAndReplaceBody (some reader)))
        (regionOf f w) c
        (signHTTP c ⟨f.method, url, hdrs, readAndReplaceBody (some reader)⟩
          (hashSHA256 (readAndReplaceBody (some reader))) f.awsService
          (regionOf f w) now) := by
  simp only [runCurl, getAWSConfig, hb, hh, hc]

/-- `runCurl`, when the body reader is ready but a header is malformed,
aborts with `invalidHeader` before the signer and the dispatch. -/
theorem runCurl_eq_headerErr (f : awsCURLFlags) (url : String) (w : World)
    (now : Nat) (reader : List Nat × Bool) (h : String)
    (hb : bodyReaderOf f w = .ok reader)
    (hh : parseHeaders f.headers = .error h) :
    runCurl f url w now = errOutcome (.invalidHeader h) := by
  simp only [runCurl, getAWSConfig, hb, hh]

/-- `runCurl`, when no credential source resolves, aborts with
`credsUnavailable` before the dispatch. -/
theorem runCurl_eq_credsErr (f : awsCURLFlags) (url : String) (w : World)
    (now : Nat) (hdrs : List (String × String)) (reader : List Nat × Bool)
    (hb : bodyReaderOf f w = .ok reader)
    (hh : parseHeaders f.headers = .ok hdrs) (hc : credsOf f w = none) :
    runCurl f url w now = errOutcome .credsUnavailable := by
  simp only [runCurl, getAWSConfig, hb, hh, hc]

/-- A run that called the network, or that transmitted a body, got past
every abort site: each earlier stage succeeded and the run is the dispatch
phase on the signed request. -/
theorem runCurl_reaches_dispatch (f : awsCURLFlags) (url : String) (w : World)
    (now : Nat)
    (hQ : (runCurl f url w now).networkCalled = true
      ∨ (runCurl f url w now).sentBody ≠ none) :
    ∃ hdrs reader c,
      bodyReaderOf f w = .ok reader ∧ parseHeaders f.headers = .ok hdrs
      ∧ credsOf f w = some c
      ∧ runCurl f url w now = dispatchPhase f w
          (hashSHA256 (readAndReplaceBody (some reader))) (regionOf f w) c
          (signHTTP c ⟨f.method, url, hdrs, readAndReplaceBody (some reader)⟩
            (hashSHA256 (readAndReplaceBody (some reader))) f.awsService
            (regionOf f w) now) := by
  cases hbr : bodyReaderOf f w with
  | error p =>
    have hrc : runCurl f url w now = errOutcome (.fileOpen p) := by
      simp only [runCurl, getAWSConfig, hbr]
    rw [hrc] at hQ
    rcases hQ with h | h <;> simp [errOutcome] at h
  | ok reader =>
    cases hph : parseHeaders f.headers with
    | error x =>
      have hrc := runCurl_eq_headerErr f url w now reader x hbr hph
      rw [hrc] at hQ
      rcases hQ with h | h <;> simp [errOutcome] at h
    | ok hdrs =>
      cases hcr : credsOf f w with
      | none =>
        have hrc := runCurl_eq_credsErr f url w now hdrs reader hbr hph hcr
        rw [hrc] at hQ
        rcases hQ with h | h <;> simp [errOutcome] at h
      | some c =>
        exact ⟨hdrs, reader, c, rfl, rfl, rfl,
          runCurl_eq_dispatch f url w now hdrs reader c hbr hph hcr⟩

/-! ## Lemmas about header parsing -/

/-- A header is rejected exactly when splitting on `:` does not give two
parts. -/
theorem parseHeader_none_iff (h : String) :
    parseHeader h = none ↔ (goSplitColon h).length ≠ 2 := by
  unfold parseHeader
  cases hg : goSplitColon h with
  | nil => simp
  | cons a t =>
    cases t with
    | nil => simp
    | cons b t2 => cases t2 <;> simp

/-- An accepted header carries exactly the trimmed halves of its split. -/
theorem parseHeader_some_trim (h k v : String)
    (hp : parseHeader h = some (k, v)) :
    ∃ k0 v0, goSplitColon h = [k0, v0] ∧ k = goTrim k0 ∧ v = goTrim v0 := by
  unfold parseHeader at hp
  cases hg : goSplitColon h with
  | nil => rw [hg] at hp; exact absurd hp (by simp)
  | cons a t =>
    cases t with
    | nil => rw [hg] at hp; exact absurd hp (by simp)
    | cons b t2 =>
      cases t2 with
      | nil =>
        rw [hg] at hp
        simp only [Option.some.injEq, Prod.mk.injEq] at hp
        exact ⟨a, b, rfl, hp.1.symm, hp.2.symm⟩
      | cons c t3 => rw [hg] at hp; exact absurd hp (by simp)

/-- A header the loop rejected is among the inputs and fails `parseHeader`. -/
theorem parseHeaders_error_mem (l : List String) (h : String)
    (he : parseHeaders l = .error h) : h ∈ l ∧ parseHeader h = none := by
  induction l with
  | nil => simp [parseHeaders] at he
  | cons x xs ih =>
    cases hx : parseHeader x with
    | none =>
      simp only [parseHeaders, hx] at he
      obtain rfl : x = h := by exact Except.error.inj he
      exact ⟨List.mem_cons_self _ _, hx⟩
    | some kv =>
      cases hr : parseHeaders xs with
      | error e2 =>
        simp only [parseHeaders, hx, hr] at he
        obtain rfl : e2 = h := by exact Except.error.inj he
        obtain ⟨hm, hn⟩ := ih hr
        exact ⟨List.mem_cons_of_mem _ hm, hn⟩
      | ok t => simp [parseHeaders, hx, hr] at he

/-- When the loop accepts the whole list, every header parses. -/
theorem parseHeaders_ok_forall (l : List String)
    (t : List (String × String)) (ht : parseHeaders l = .ok t) :
    ∀ x ∈ l, parseHeader x ≠ none := by
  induction l generalizing t with
  | nil => intro x hx; simp at hx
  | cons y ys ih =>
    intro x hx
    cases hy : parseHeader y with
    | none => simp [parseHeaders, hy] at ht
    | some kv =>
      cases hr : parseHeaders ys with
      | error e2 => simp [parseHeaders, hy, hr] at ht
      | ok t2 =>
        rcases List.mem_cons.mp hx with rfl | hx2
        · simp [hy]
        · exact ih t2 hr x hx2

/-- When the loop accepts, the added `(name, value)` pairs are exactly the
input headers parsed in order. -/
theorem parseHeaders_ok_map (l : List String) (t : List (String × String))
    (ht : parseHeaders l = .ok t) :
    t.length = l.length ∧
      ∀ i, parseHeader (l.getD i "") = some (t.getD i ("", "")) ∨
        l.length ≤ i := by
  induction l generalizing t with
  | nil =>
    simp only [parseHeaders] at ht
    obtain rfl : ([] : List (String × String)) = t := Except.ok.inj ht
    exact ⟨rfl, fun i => Or.inr (Nat.zero_le i)⟩
  | cons y ys ih =>
    cases hy : parseHeader y with
    | none => simp [parseHeaders, hy] at ht
    | some kv =>
      cases hr : parseHeaders ys with
      | error e2 => simp [parseHeaders, hy, hr] at ht
      | ok t2 =>
        simp only [parseHeaders, hy, hr] at ht
        obtain rfl : kv :: t2 = t := Except.ok.inj ht
        obtain ⟨hlen, hidx⟩ := ih t2 hr
        refine ⟨by simp [hlen], fun i => ?_⟩
        cases i with
        | zero => exact Or.inl (by simpa using hy)
        | succ j =>
          rcases hidx j with hj | hj
          · exact Or.inl (by simpa using hj)
          · exact Or.inr (by simpa using Nat.succ_le_succ hj)

/-! ## The claims -/

/-- C4: for every invocation with no body (empty `--data`, hence no file
payload), the body hash handed to the signer is the hex-encoded SHA-256
digest of the empty byte sequence — the missing body is hashed as empty
bytes, never skipped or replaced by a sentinel. -/
theorem C4_empty_body_hash (f : awsCURLFlags) (url : String) (w : World)
    (now : Nat) (hdrs : List (String × String)) (c : Credentials)
    (hdata : f.data = "") (hh : parseHeaders f.headers = .ok hdrs)
    (hc : credsOf f w = some c) :
    (runCurl f url w now).signedBodyHash = some emptySHA256Hex := by
  have hb : bodyReaderOf f w = .ok ([], false) := by
    unfold bodyReaderOf
    rw [hdata]
    rfl
  rw [runCurl_eq_dispatch f url w now hdrs ([], false) c hb hh hc,
    dispatchPhase_signedBodyHash]
  rw [show readAndReplaceBody (some ([], false)) = [] from rfl, hashSHA256_nil]

/-- C4 witness: a concrete bodiless run hands the signer the well-known
empty digest. -/
theorem C4_empty_body_hash_witness :
    (runCurl defaultFlags "https://example.com" exampleWorld 0).signedBodyHash
      = some emptySHA256Hex :=
  C4_empty_body_hash defaultFlags "https://example.com" exampleWorld 0 []
    envCreds rfl rfl (by decide)

/-- C5: with `--data` prefixed by `@`, the payload is the exact byte content
of the referenced file, the body hash handed to the signer is the
hex-encoded SHA-256 of those exact bytes, and any transmitted body is those
same bytes. -/
theorem C5_file_body_hash (f : awsCURLFlags) (url : String) (w : World)
    (now : Nat) (hdrs : List (String × String)) (c : Credentials)
    (bs b : List Nat) (hat : dataStartsWithAt f.data = true)
    (hfs : w.fsOpen (goDropFirst f.data) = some (bs, false))
    (hh : parseHeaders f.headers = .ok hdrs) (hc : credsOf f w = some c) :
    (runCurl f url w now).signedBodyHash = some (hashSHA256 bs)
    ∧ ((runCurl f url w now).sentBody = some b → b = bs) := by
  have hb : bodyReaderOf f w = .ok (bs, false) := by
    simp [bodyReaderOf, hat, hfs]
  have hd := runCurl_eq_dispatch f url w now hdrs (bs, false) c hb hh hc
  constructor
  · rw [hd, dispatchPhase_signedBodyHash]
    rfl
  · intro hsb
    rw [hd] at hsb
    exact dispatchPhase_sentBody _ _ _ _ _ _ _ hsb

/-- C5 witness: a concrete `-d @payload.json` run signs the hash of the file
bytes `[1, 2, 3]`. -/
theorem C5_file_body_hash_witness :
    (runCurl fileFlags "https://example.com" fileWorld 0).signedBodyHash
      = some (hashSHA256 [1, 2, 3])
    ∧ ((runCurl fileFlags "https://example.com" fileWorld 0).sentBody
        = some [1, 2, 3] → [1, 2, 3] = ([1, 2, 3] : List Nat)) :=
  C5_file_body_hash fileFlags "https://example.com" fileWorld 0 [] envCreds
    [1, 2, 3] [1, 2, 3] rfl (by decide) rfl (by decide)

/-- C6: when no credential source yields usable credentials, the run fails
with the credential-retrieval error, the process exits non-zero with a
message on standard error, and no network call to the target is attempted. -/
theorem C6_no_creds_no_network (f : awsCURLFlags) (url : String) (w : World)
    (now : Nat) (hdrs : List (String × String)) (reader : List Nat × Bool)
    (hb : bodyReaderOf f w = .ok reader)
    (hh : parseHeaders f.headers = .ok hdrs) (hc : credsOf f w = none) :
    (runCurl f url w now).result = .error .credsUnavailable
    ∧ (runCurl f url w now).networkCalled = false
    ∧ mainExitCode f url w now = 1
    ∧ stderrOutput f url w now
        = "Error: " ++ errorMessage .credsUnavailable ++ "\n" := by
  have hrun := runCurl_eq_credsErr f url w now hdrs reader hb hh hc
  refine ⟨by rw [hrun]; rfl, by rw [hrun]; rfl, ?_, ?_⟩
  · unfold mainExitCode
    rw [hrun]
    rfl
  · unfold stderrOutput
    rw [hrun]
    rfl

/-- C6 witness: a concrete run with an empty credential chain fails before
any network call and exits 1. -/
theorem C6_no_creds_no_network_witness :
    (runCurl defaultFlags "https://example.com" noCredsWorld 0).result
      = .error .credsUnavailable
    ∧ (runCurl defaultFlags "https://example.com" noCredsWorld 0).networkCalled
      = false
    ∧ mainExitCode defaultFlags "https://example.com" noCredsWorld 0 = 1
    ∧ stderrOutput defaultFlags "https://example.com" noCredsWorld 0
      = "Error: " ++ errorMessage .credsUnavailable ++ "\n" :=
  C6_no_creds_no_network defaultFlags "https://example.com" noCredsWorld 0 []
    ([], false) rfl rfl (by decide)

/-- C7: signing mutates only the outgoing header set and never the body —
whenever a body is transmitted, its bytes are exactly the bytes whose hash
was handed to the signer, and `signHTTP` preserves method, URL and body,
only appending headers. -/
theorem C7_signing_frame (f : awsCURLFlags) (url : String) (w : World)
    (now : Nat) (b : List Nat) (creds : Credentials) (req : Request)
    (bodyHash service region : String)
    (hsent : (runCurl f url w now).sentBody = some b) :
    (runCurl f url w now).signedBodyHash = some (hashSHA256 b)
    ∧ (signHTTP creds req bodyHash service region now).body = req.body
    ∧ (signHTTP creds req bodyHash service region now).method = req.method
    ∧ (signHTTP creds req bodyHash service region now).url = req.url
    ∧ (signHTTP creds req bodyHash service region now).headers
        = req.headers ++ signedHeaders creds bodyHash service region now := by
  refine ⟨?_, rfl, rfl, rfl, rfl⟩
  obtain ⟨hdrs, reader, c, hbr, hph, hcr, hd⟩ :=
    runCurl_reaches_dispatch f url w now (Or.inr (by rw [hsent]; simp))
  rw [hd] at hsent ⊢
  have hbody := dispatchPhase_sentBody _ _ _ _ _ _ _ hsent
  rw [dispatchPhase_signedBodyHash, hbody]
  rfl

/-- C7 witness: the concrete `"hi"` payload is transmitted byte-identical to
what was hashed, and the modelled signer only appends headers. -/
theorem C7_signing_frame_witness :
    (runCurl dataFlags "https://example.com" exampleWorld 0).signedBodyHash
      = some (hashSHA256 [104, 105])
    ∧ (signHTTP envCreds ⟨"GET", "https://example.com", [], [104, 105]⟩
        "h" "execute-api" "" 0).body = [104, 105]
    ∧ (signHTTP envCreds ⟨"GET", "https://example.com", [], [104, 105]⟩
        "h" "execute-api" "" 0).method = "GET"
    ∧ (signHTTP envCreds ⟨"GET", "https://example.com", [], [104, 105]⟩
        "h" "execute-api" "" 0).url = "https://example.com"
    ∧ (signHTTP envCreds ⟨"GET", "https://example.com", [], [104, 105]⟩
        "h" "execute-api" "" 0).headers
      = [] ++ signedHeaders envCreds "h" "execute-api" "" 0 :=
  C7_signing_frame dataFlags "https://example.com" exampleWorld 0 [104, 105]
    envCreds ⟨"GET", "https://example.com", [], [104, 105]⟩ "h" "execute-api"
    "" (by decide)

/-- C8: body hashing and the canonicalization step are pure deterministic
functions — byte-identical inputs give byte-identical outputs, and the
signer depends only on its explicitly passed timestamp (no hidden clock
reads or randomness). -/
theorem C8_hash_deterministic (b1 b2 : List Nat)
    (r1 r2 : Option (List Nat × Bool)) (creds : Credentials) (req : Request)
    (bodyHash service region : String) (t1 t2 : Nat)
    (hb : b1 = b2) (hr : r1 = r2) (ht : t1 = t2) :
    hashSHA256 b1 = hashSHA256 b2
    ∧ readAndReplaceBody r1 = readAndReplaceBody r2
    ∧ signHTTP creds req bodyHash service region t1
        = signHTTP creds req bodyHash service region t2 := by
  subst hb
  subst hr
  subst ht
  exact ⟨rfl, rfl, rfl⟩

/-- C8 witness: determinism at a concrete byte sequence and timestamp. -/
theorem C8_hash_deterministic_witness :
    hashSHA256 [97] = hashSHA256 [97]
    ∧ readAndReplaceBody (some ([97], false))
        = readAndReplaceBody (some ([97], false))
    ∧ signHTTP envCreds ⟨"GET", "https://example.com", [], [97]⟩ "h"
        "execute-api" "us-east-1" 7
      = signHTTP envCreds ⟨"GET", "https://example.com", [], [97]⟩ "h"
        "execute-api" "us-east-1" 7 :=
  C8_hash_deterministic [97] [97] (some ([97], false)) (some ([97], false))
    envCreds ⟨"GET", "https://example.com", [], [97]⟩ "h" "execute-api"
    "us-east-1" 7 7 rfl rfl rfl

/-- C1 counterexample: with only `--access-key` set (partial explicit
credentials) and credentials available from the default chain, the run does
NOT fail fast — it signs with the chain credentials, calls the network and
succeeds, silently ignoring the partially supplied explicit credentials. -/
theorem C1_counterexample :
    partialCredFlags.awsAccessKey ≠ "" ∧ partialCredFlags.awsSecretKey = ""
    ∧ (runCurl partialCredFlags "https://example.com" exampleWorld 0).result
        = .ok [111, 107, 10]
    ∧ (runCurl partialCredFlags "https://example.com"
        exampleWorld 0).networkCalled = true
    ∧ (runCurl partialCredFlags "https://example.com" exampleWorld 0).signedCreds
        = some envCreds := by
  decide

/-- C1 (amended): if exactly one of `--access-key` and `--secret-key` is
provided, `getAWSConfig` raises no error at all — the partial explicit
credentials are silently ignored and the credential provider is whatever the
SDK default chain yields, so the run proceeds whenever that chain
resolves. -/
theorem C1_partial_creds_ignored (f : awsCURLFlags) (w : World)
    (h : (f.awsAccessKey = "" ∧ f.awsSecretKey ≠ "")
      ∨ (f.awsAccessKey ≠ "" ∧ f.awsSecretKey = "")) :
    getAWSConfig f w = .ok ⟨w.chainCreds, regionOf f w⟩ := by
  unfold getAWSConfig credsOf
  rcases h with ⟨h1, h2⟩ | ⟨h1, h2⟩ <;> simp [h1, h2]

/-- C1 witness: the partial-credential flags at a concrete world. -/
theorem C1_partial_creds_ignored_witness :
    getAWSConfig partialCredFlags exampleWorld
      = .ok ⟨exampleWorld.chainCreds, regionOf partialCredFlags exampleWorld⟩ :=
  C1_partial_creds_ignored partialCredFlags exampleWorld
    (Or.inr ⟨by decide, rfl⟩)

/-- C2 counterexample: the well-formed header
`X-Endpoint: https://h:8443`, whose value contains colons, is REJECTED with
the invalid-header error — refuting the claim that such a header is
accepted. -/
theorem C2_counterexample :
    parseHeader "X-Endpoint: https://h:8443" = none
    ∧ (runCurl colonHeaderFlags "https://example.com" exampleWorld 0).result
        = .error (.invalidHeader "X-Endpoint: https://h:8443")
    ∧ (runCurl colonHeaderFlags "https://example.com"
        exampleWorld 0).networkCalled = false := by
  decide

/-- C2 (amended): with the body source ready, the run aborts with the
invalid-header error — before any network call — exactly when some
`--header` string does not split on `:` into exactly two parts (so a header
whose value itself contains a colon is also rejected); an accepted header is
added with its name and value whitespace-trimmed. -/
theorem C2_header_validation (f : awsCURLFlags) (url : String) (w : World)
    (now : Nat) (reader : List Nat × Bool) (hh0 k v : String)
    (hb : bodyReaderOf f w = .ok reader) :
    ((∃ x ∈ f.headers, (goSplitColon x).length ≠ 2) ↔
      ∃ x, (runCurl f url w now).result = .error (.invalidHeader x)
        ∧ (runCurl f url w now).networkCalled = false
        ∧ x ∈ f.headers ∧ (goSplitColon x).length ≠ 2)
    ∧ (parseHeader hh0 = some (k, v) →
      ∃ k0 v0, goSplitColon hh0 = [k0, v0] ∧ k = goTrim k0 ∧ v = goTrim v0) := by
  constructor
  · constructor
    · rintro ⟨x, hx, hlen⟩
      cases hph : parseHeaders f.headers with
      | ok t =>
        exact absurd ((parseHeader_none_iff x).mpr hlen)
          (parseHeaders_ok_forall f.headers t hph x hx)
      | error e =>
        obtain ⟨hmem, hnone⟩ := parseHeaders_error_mem f.headers e hph
        have hrun := runCurl_eq_headerErr f url w now reader e hb hph
        exact ⟨e, by rw [hrun]; rfl, by rw [hrun]; rfl, hmem,
          (parseHeader_none_iff e).mp hnone⟩
    · rintro ⟨x, hres, hnet, hmem, hlen⟩
      exact ⟨x, hmem, hlen⟩
  · exact parseHeader_some_trim hh0 k v

/-- C2 witness: the spec's `"BadHeader"` scenario — rejected before any
network call — and a concrete accepted header with trimmed name and value. -/
theorem C2_header_validation_witness :
    ((∃ x ∈ badHeaderFlags.headers, (goSplitColon x).length ≠ 2) ↔
      ∃ x, (runCurl badHeaderFlags "https://example.com" exampleWorld 0).result
          = .error (.invalidHeader x)
        ∧ (runCurl badHeaderFlags "https://example.com"
            exampleWorld 0).networkCalled = false
        ∧ x ∈ badHeaderFlags.headers ∧ (goSplitColon x).length ≠ 2)
    ∧ (parseHeader " Content-Type : application/json "
        = some ("Content-Type", "application/json") →
      ∃ k0 v0, goSplitColon " Content-Type : application/json " = [k0, v0]
        ∧ "Content-Type" = goTrim k0 ∧ "application/json" = goTrim v0) :=
  C2_header_validation badHeaderFlags "https://example.com" exampleWorld 0
    ([], false) " Content-Type : application/json " "Content-Type"
    "application/json" rfl

/-- C3 counterexample: with no region from any source (flag, environment or
profile) but resolvable credentials, the run does NOT fail with a
region-unavailable error — it signs with the empty region, dispatches, and
succeeds. -/
theorem C3_counterexample :
    regionOf defaultFlags exampleWorld = ""
    ∧ (runCurl defaultFlags "https://api.example.com" exampleWorld 0).signedRegion
        = some ""
    ∧ (runCurl defaultFlags "https://api.example.com"
        exampleWorld 0).networkCalled = true
    ∧ (runCurl defaultFlags "https://api.example.com" exampleWorld 0).result
        = .ok [111, 107, 10] := by
  decide

/-- C3 (amended): the region handed to the signer follows the priority
explicit flag > environment > profile, but when no source yields a region
the program raises no region error: it signs with the empty region and
proceeds to dispatch. -/
theorem C3_region_resolution (f : awsCURLFlags) (url : String) (w : World)
    (now : Nat) (hdrs : List (String × String)) (reader : List Nat × Bool)
    (c : Credentials) (hb : bodyReaderOf f w = .ok reader)
    (hh : parseHeaders f.headers = .ok hdrs) (hc : credsOf f w = some c) :
    (f.awsRegion ≠ "" → regionOf f w = f.awsRegion)
    ∧ (f.awsRegion = "" → w.envRegion ≠ "" → regionOf f w = w.envRegion)
    ∧ (f.awsRegion = "" → w.envRegion = "" → regionOf f w = w.profileRegion)
    ∧ (runCurl f url w now).signedRegion = some (regionOf f w) := by
  refine ⟨?_, ?_, ?_, ?_⟩
  · intro h1
    simp [regionOf, h1]
  · intro h1 h2
    simp [regionOf, sdkRegion, h1, h2]
  · intro h1 h2
    simp [regionOf, sdkRegion, h1, h2]
  · rw [runCurl_eq_dispatch f url w now hdrs reader c hb hh hc,
      dispatchPhase_signedRegion]

/-- C3 witness: a concrete region-less run hands the signer the empty
region. -/
theorem C3_region_resolution_witness :
    (defaultFlags.awsRegion ≠ "" →
      regionOf defaultFlags exampleWorld = defaultFlags.awsRegion)
    ∧ (defaultFlags.awsRegion = "" → exampleWorld.envRegion ≠ "" →
      regionOf defaultFlags exampleWorld = exampleWorld.envRegion)
    ∧ (defaultFlags.awsRegion = "" → exampleWorld.envRegion = "" →
      regionOf defaultFlags exampleWorld = exampleWorld.profileRegion)
    ∧ (runCurl defaultFlags "https://api.example.com"
        exampleWorld 0).signedRegion
      = some (regionOf defaultFlags exampleWorld) :=
  C3_region_resolution defaultFlags "https://api.example.com" exampleWorld 0
    [] ([], false) envCreds rfl rfl (by decide)

/-- C9 counterexample: on a successful request the bytes written to standard
output are NOT exactly the response body — `fmt.Println` appends a newline
byte, so the response `"ok"` is printed as `"ok\n"`. -/
theorem C9_counterexample :
    exampleWorld.transport = some [111, 107]
    ∧ (runCurl defaultFlags "https://example.com" exampleWorld 0).result
        = .ok [111, 107, 10]
    ∧ ([111, 107, 10] : List Nat) ≠ [111, 107] := by
  decide

/-- C9 (amended): on a successful request the bytes written to standard
output are the response body followed by exactly one `fmt.Println` newline
byte; on any error the process exits non-zero with the error message on
standard error. -/
theorem C9_output_newline (f : awsCURLFlags) (url : String) (w : World)
    (now : Nat) (rb : List Nat) (e : RunError)
    (htr : w.transport = some rb) :
    ((runCurl f url w now).networkCalled = true →
      (runCurl f url w now).result = .ok (rb ++ [10]))
    ∧ ((runCurl f url w now).result = .error e →
      mainExitCode f url w now = 1
      ∧ stderrOutput f url w now = "Error: " ++ errorMessage e ++ "\n") := by
  constructor
  · intro hnet
    obtain ⟨hdrs, reader, c, hbr, hph, hcr, hd⟩ :=
      runCurl_reaches_dispatch f url w now (Or.inl hnet)
    rw [hd] at hnet ⊢
    exact dispatchPhase_result_ok _ _ _ _ _ _ rb htr hnet
  · intro herr
    unfold mainExitCode stderrOutput
    rw [herr]
    exact ⟨rfl, rfl⟩

/-- C9 witness: a concrete successful run prints `"ok"` plus the newline;
its error implication holds vacuously. -/
theorem C9_output_newline_witness :
    ((runCurl defaultFlags "https://example.com"
        exampleWorld 0).networkCalled = true →
      (runCurl defaultFlags "https://example.com" exampleWorld 0).result
        = .ok ([111, 107] ++ [10]))
    ∧ ((runCurl defaultFlags "https://example.com" exampleWorld 0).result
        = .error .transport →
      mainExitCode defaultFlags "https://example.com" exampleWorld 0 = 1
      ∧ stderrOutput defaultFlags "https://example.com" exampleWorld 0
        = "Error: " ++ errorMessage .transport ++ "\n") :=
  C9_output_newline defaultFlags "https://example.com" exampleWorld 0
    [111, 107] .transport rfl

/-- C10: at the failing input — `--data @payload.json` where `ReadAll` on
the opened file yields the partial bytes `"ab"` together with a read error —
the error is discarded by `readAndReplaceBody` (the `payload, _ :=` at
`src/main.go` line 208): the run signs over the partial bytes, dispatches
the request and exits 0, silently swallowing the read error. -/
theorem C10_read_error_swallowed :
    readAndReplaceBody (some ([97, 98], true))
      = readAndReplaceBody (some ([97, 98], false))
    ∧ (runCurl fileFlags "https://example.com" truncWorld 0).result
        = .ok [111, 107, 10]
    ∧ (runCurl fileFlags "https://example.com" truncWorld 0).networkCalled
        = true
    ∧ (runCurl fileFlags "https://example.com" truncWorld 0).signedBodyHash
        = some (hashSHA256 [97, 98])
    ∧ mainExitCode fileFlags "https://example.com" truncWorld 0 = 0 := by
  decide

end AWSCurl
